import Mathlib

/-!
# AssignmentCharacter: wall-climb and wall-jump ability

A shallow embedding of `Source/Assignment/AssignmentCharacter.cpp`.

* The character's own members (`ClimbMod`, `detectedWall`) and the members of
  engine objects that the handlers read or write (`MovementMode`,
  `bOrientRotationToMovement`, `Controller`, the actor's location and forward
  vector) are fields of one record.
* Every handler is a pure function from the record to the new record together
  with the list of engine calls it issued, in program order.
* The world is the function that answers line-trace queries.
* A scalar is the rational number that the machine value denotes. The vector
  arithmetic of `Tick` is carried out exactly. A scalar handed to a `float`
  parameter of the engine goes through the IEEE 754 conversions of the program:
  `toDouble` is the rounding of a double-precision operation, `toFloat` the
  conversion to single precision, both to nearest with ties to even. The two
  zeros are identified; NaN and infinite inputs are outside the model.
* `SetMovementMode(m)` is the assignment of `MovementMode`: that is the value the
  movement component holds when the call returns.
-/

namespace Assignment

/-! ## Engine value types -/

/-- Engine vector with three scalar components. -/
structure FVector where
  X : ℚ
  Y : ℚ
  Z : ℚ
deriving DecidableEq, Repr

instance : Sub FVector := ⟨fun a b => ⟨a.X - b.X, a.Y - b.Y, a.Z - b.Z⟩⟩

instance : Add FVector := ⟨fun a b => ⟨a.X + b.X, a.Y + b.Y, a.Z + b.Z⟩⟩

instance : HMul FVector ℚ FVector := ⟨fun a k => ⟨a.X * k, a.Y * k, a.Z * k⟩⟩

/-- Engine 2D vector, the payload of the move and look input actions; its
components are doubles. -/
structure FVector2D where
  X : ℚ
  Y : ℚ
deriving DecidableEq, Repr

/-- Engine rotator; the constructor takes pitch, yaw, roll in this order. -/
structure FRotator where
  Pitch : ℚ
  Yaw : ℚ
  Roll : ℚ
deriving DecidableEq, Repr

/-- Movement modes of the engine's character movement component. -/
inductive EMovementMode where
  | MOVE_None
  | MOVE_Walking
  | MOVE_NavWalking
  | MOVE_Falling
  | MOVE_Swimming
  | MOVE_Flying
  | MOVE_Custom
deriving DecidableEq, Repr

/-- Axis selector of `GetUnitAxis`. -/
inductive EAxis where
  | None
  | X
  | Y
  | Z
deriving DecidableEq, Repr

/-- Debug colours used by the per-frame update. -/
inductive FColor where
  | Red
  | Green
deriving DecidableEq, Repr

/-- Collision channels; `ECC_GameTraceChannel1` is the project's wall channel. -/
inductive ECollisionChannel where
  | ECC_WorldStatic
  | ECC_Visibility
  | ECC_GameTraceChannel1
deriving DecidableEq, Repr

/-- Query parameters of a line trace: whether the querying actor was added to
the ignore list (`Params.AddIgnoredActor(this)`). -/
structure FCollisionQueryParams where
  IgnoresSelf : Bool
deriving DecidableEq, Repr

/-! ## Floating-point scalars -/

/-- The C++ type `float`: a finite single-precision number, given as the
rational it denotes, or an infinity. -/
inductive float where
  | finite (value : ℚ)
  | infinity (negative : Bool)
deriving DecidableEq, Repr

/-- The binary exponent of a nonzero rational: the `e` with
`2 ^ e ≤ |q| < 2 ^ (e + 1)`. -/
def binaryExponent (q : ℚ) : ℤ :=
  Int.log 2 |q|

/-- The integer nearest to `x`, the even one of the two when `x` lies half way. -/
def roundHalfEven (x : ℚ) : ℤ :=
  let f := ⌊x⌋
  let r := x - f
  if r < 1 / 2 then f
  else if 1 / 2 < r then f + 1
  else if f % 2 = 0 then f
  else f + 1

/-- IEEE 754 rounding to nearest, ties to even, into the binary format with `p`
significand bits and least normal exponent `emin` (gradual underflow below it),
the exponent unbounded above. -/
def roundNearestEven (p : ℕ) (emin : ℤ) (q : ℚ) : ℚ :=
  if q = 0 then 0
  else
    let e := max (binaryExponent q) emin
    let quantum : ℚ := 2 ^ (e - ((p : ℤ) - 1))
    roundHalfEven (q / quantum) * quantum

/-- The result of a double-precision operation whose exact value is `q`
(binary64: 53 significand bits, least normal exponent -1022). The products
formed by `Move` have magnitude below that of their double operand, so they do
not overflow. -/
def toDouble (q : ℚ) : ℚ :=
  roundNearestEven 53 (-1022) q

/-- The largest finite single-precision number. -/
def FLT_MAX : ℚ :=
  (2 ^ 24 - 1) * 2 ^ 104

/-- The conversion of a double to the `float` parameter of an engine call
(binary32: 24 significand bits, least normal exponent -126): rounding to
nearest, and an infinity when the rounded magnitude exceeds `FLT_MAX`. -/
def toFloat (q : ℚ) : float :=
  let r := roundNearestEven 24 (-126) q
  if FLT_MAX < |r| then float.infinity (decide (q < 0)) else float.finite r

/-- The double denoted by the literal `0.3` (lines 165-166): the double nearest
to 3/10. -/
def literal03 : ℚ :=
  toDouble (3 / 10)

/-- The vector `FRotationMatrix(Rotation).GetUnitAxis(Axis)`, kept as the pair
of its arguments: `X` is the forward axis of the rotation, `Y` its right axis,
`Z` its up axis. -/
structure FUnitAxis where
  Rotation : FRotator
  Axis : EAxis
deriving DecidableEq, Repr

/-- The controller possessing the pawn, reduced to its control rotation. -/
structure AController where
  ControlRotation : FRotator
deriving DecidableEq, Repr

/-- The world as seen by this file: the answer to a line-trace query
`LineTraceSingleByChannel(Hit, Start, End, Channel, Params)`. -/
structure UWorld where
  LineTraceSingleByChannel :
    FVector → FVector → ECollisionChannel → FCollisionQueryParams → Bool

/-- Calls into the engine made by the handlers, in program order. -/
inductive EngineCall where
  | LineTraceSingleByChannel (Start End : FVector) (Channel : ECollisionChannel)
      (Params : FCollisionQueryParams)
  | DrawDebugLine (LineStart LineEnd : FVector) (Color : FColor)
  | UE_LOG (Message : String)
  | LaunchCharacter (LaunchVelocity : FVector) (bXYOverride bZOverride : Bool)
  | AddMovementInput (WorldDirection : FUnitAxis) (ScaleValue : float)
  | AddControllerYawInput (Val : float)
  | AddControllerPitchInput (Val : float)
deriving DecidableEq, Repr

/-- The launch velocities among a list of engine calls. -/
def launchImpulses : List EngineCall → List FVector
  | [] => []
  | EngineCall.LaunchCharacter v _ _ :: cs => v :: launchImpulses cs
  | _ :: cs => launchImpulses cs

/-! ## The character -/

/-- The character: its two ability flags and the engine members the handlers
read or write. `Controller = none` is the null controller. -/
structure AAssignmentCharacter where
  ClimbMod : Bool
  detectedWall : Bool
  MovementMode : EMovementMode
  bOrientRotationToMovement : Bool
  Controller : Option AController
  ActorLocation : FVector
  ActorForwardVector : FVector
deriving DecidableEq, Repr

namespace AAssignmentCharacter

/-- Local `foot` of `Tick` (line 76). -/
def Tick.foot (self : AAssignmentCharacter) : FVector :=
  self.ActorLocation - (⟨0, 0, 90⟩ : FVector)

/-- Local `start` of `Tick` (line 77). -/
def Tick.start (self : AAssignmentCharacter) : FVector :=
  self.ActorLocation

/-- Local `end` of `Tick` (line 78). -/
def Tick.end_ (self : AAssignmentCharacter) : FVector :=
  Tick.foot self + self.ActorForwardVector * (45 : ℚ)

/-- Local `Params` of `Tick` after `Params.AddIgnoredActor(this)` (lines 82-83). -/
def Tick.Params : FCollisionQueryParams :=
  ⟨true⟩

/-- The condition of the `if` at line 85: the result of the line trace. -/
def Tick.hit (World : UWorld) (self : AAssignmentCharacter) : Bool :=
  World.LineTraceSingleByChannel (Tick.start self) (Tick.end_ self)
    ECollisionChannel.ECC_GameTraceChannel1 Tick.Params

/-- The per-frame update `AAssignmentCharacter::Tick` (lines 72-103). The unused
local `up` (line 79) is left out. -/
def Tick (World : UWorld) (self : AAssignmentCharacter) :
    AAssignmentCharacter × List EngineCall :=
  let query := EngineCall.LineTraceSingleByChannel (Tick.start self) (Tick.end_ self)
    ECollisionChannel.ECC_GameTraceChannel1 Tick.Params
  if Tick.hit World self then
    ({ self with detectedWall := true },
      [query, EngineCall.DrawDebugLine (Tick.foot self) (Tick.end_ self) FColor.Green])
  else
    if self.ClimbMod then
      ({ self with
          detectedWall := false
          ClimbMod := false
          MovementMode := EMovementMode.MOVE_Walking
          bOrientRotationToMovement := true },
        [query, EngineCall.DrawDebugLine (Tick.foot self) (Tick.end_ self) FColor.Red,
          EngineCall.UE_LOG "FlimbMod Off"])
    else
      ({ self with detectedWall := false },
        [query, EngineCall.DrawDebugLine (Tick.foot self) (Tick.end_ self) FColor.Red])

/-- The move handler `AAssignmentCharacter::Move` (lines 134-169); `Value` is the
2D vector carried by the input action. The second argument of `AddMovementInput`
is a `float` parameter, so the double passed to it is converted; in climb mode
that double is the product with the double literal `0.3`. -/
def Move (Value : FVector2D) (self : AAssignmentCharacter) :
    AAssignmentCharacter × List EngineCall :=
  let MovementVector := Value
  match self.Controller with
  | some Controller =>
    let Rotation := Controller.ControlRotation
    let YawRotation : FRotator := ⟨0, Rotation.Yaw, 0⟩
    if !self.ClimbMod then
      let ForwardDirection : FUnitAxis := ⟨YawRotation, EAxis.X⟩
      let RightDirection : FUnitAxis := ⟨YawRotation, EAxis.Y⟩
      (self, [EngineCall.AddMovementInput ForwardDirection (toFloat MovementVector.Y),
              EngineCall.AddMovementInput RightDirection (toFloat MovementVector.X)])
    else if self.ClimbMod then
      let UpDirection : FUnitAxis := ⟨YawRotation, EAxis.Z⟩
      let RightDirection : FUnitAxis := ⟨YawRotation, EAxis.Y⟩
      (self, [EngineCall.AddMovementInput UpDirection
                (toFloat (toDouble (MovementVector.Y * literal03))),
              EngineCall.AddMovementInput RightDirection
                (toFloat (toDouble (MovementVector.X * literal03)))])
    else
      (self, [])
  | none => (self, [])

/-- The look handler `AAssignmentCharacter::Look` (lines 171-182); both engine
calls take a `float`. -/
def Look (Value : FVector2D) (self : AAssignmentCharacter) :
    AAssignmentCharacter × List EngineCall :=
  let LookAxisVector := Value
  match self.Controller with
  | some _ =>
    (self, [EngineCall.AddControllerYawInput (toFloat LookAxisVector.X),
            EngineCall.AddControllerPitchInput (toFloat LookAxisVector.Y)])
  | none => (self, [])

/-- The climb handler `AAssignmentCharacter::Climb` (lines 184-203); the input
value it receives is not read. -/
def Climb (self : AAssignmentCharacter) : AAssignmentCharacter × List EngineCall :=
  if self.detectedWall then
    if self.ClimbMod then
      ({ self with
          ClimbMod := false
          MovementMode := EMovementMode.MOVE_Walking
          bOrientRotationToMovement := true },
        [EngineCall.UE_LOG "FlimbMod Off"])
    else
      ({ self with
          ClimbMod := true
          MovementMode := EMovementMode.MOVE_Flying
          bOrientRotationToMovement := false },
        [EngineCall.UE_LOG "FlimbMod On"])
  else
    (self, [])

/-- The wall-jump handler `AAssignmentCharacter::WallJump` (lines 205-217); the
input value it receives is not read. -/
def WallJump (self : AAssignmentCharacter) : AAssignmentCharacter × List EngineCall :=
  if self.ClimbMod then
    let JumpVector : FVector := ⟨-250, 0, 650⟩
    ({ self with
        ClimbMod := false
        MovementMode := EMovementMode.MOVE_Walking
        bOrientRotationToMovement := true },
      [EngineCall.UE_LOG "Wall Jump!",
       EngineCall.LaunchCharacter JumpVector false false,
       EngineCall.UE_LOG "FlimbMod Off"])
  else
    (self, [])

end AAssignmentCharacter

/-! ## Event dispatch -/

/-- The events the engine delivers to the character: the per-frame update
against the current world, and the input actions bound in
`SetupPlayerInputComponent` (lines 120-129). -/
inductive Event where
  | Tick (World : UWorld)
  | Climb
  | WallJump
  | Move (Value : FVector2D)
  | Look (Value : FVector2D)

/-- State after the handler of one event has run. -/
def step (s : AAssignmentCharacter) : Event → AAssignmentCharacter
  | Event.Tick World => (AAssignmentCharacter.Tick World s).1
  | Event.Climb => (AAssignmentCharacter.Climb s).1
  | Event.WallJump => (AAssignmentCharacter.WallJump s).1
  | Event.Move Value => (AAssignmentCharacter.Move Value s).1
  | Event.Look Value => (AAssignmentCharacter.Look Value s).1

/-- State after a finite sequence of events, handled in order. -/
def run (s : AAssignmentCharacter) (es : List Event) : AAssignmentCharacter :=
  es.foldl step s

/-- The reachable-state invariant: climb mode implies a detected wall. -/
def ClimbNeedsWall (s : AAssignmentCharacter) : Prop :=
  s.ClimbMod = true → s.detectedWall = true

/-! ## Sample inputs -/

/-- A world without wall geometry: every trace misses. -/
def emptyWorld : UWorld :=
  ⟨fun _ _ _ _ => false⟩

/-- A world whose wall geometry is hit by every trace on the wall channel. -/
def wallWorld : UWorld :=
  ⟨fun _ _ Channel _ => decide (Channel = ECollisionChannel.ECC_GameTraceChannel1)⟩

/-- A world whose only wall geometry is the horizontal plane `Z = -45`: a trace
on the wall channel hits exactly when its end points are not strictly on the
same side of that plane. -/
def slabWorld : UWorld :=
  ⟨fun Start End Channel _ =>
    decide (Channel = ECollisionChannel.ECC_GameTraceChannel1) &&
      decide ((Start.Z + 45) * (End.Z + 45) ≤ 0)⟩

/-- A grounded character at the origin facing along `+X`, possessed by a
controller, no wall detected. -/
def groundedAtOrigin : AAssignmentCharacter :=
  { ClimbMod := false
    detectedWall := false
    MovementMode := EMovementMode.MOVE_Walking
    bOrientRotationToMovement := true
    Controller := some ⟨⟨10, 30, 0⟩⟩
    ActorLocation := ⟨0, 0, 0⟩
    ActorForwardVector := ⟨1, 0, 0⟩ }

/-- The same character with a wall detected. -/
def groundedAtWall : AAssignmentCharacter :=
  { groundedAtOrigin with detectedWall := true }

/-- The same character in climb mode on a detected wall. -/
def climbingAtWall : AAssignmentCharacter :=
  { groundedAtOrigin with
      ClimbMod := true
      detectedWall := true
      MovementMode := EMovementMode.MOVE_Flying
      bOrientRotationToMovement := false }

theorem Tick_hit_state (World : UWorld) (self : AAssignmentCharacter)
    (h : AAssignmentCharacter.Tick.hit World self = true) :
    (AAssignmentCharacter.Tick World self).1 = { self with detectedWall := true } := by
  simp [AAssignmentCharacter.Tick, h]

theorem Tick_miss_state (World : UWorld) (self : AAssignmentCharacter)
    (h : AAssignmentCharacter.Tick.hit World self = false) :
    (AAssignmentCharacter.Tick World self).1 =
      if self.ClimbMod then
        { self with
            detectedWall := false
            ClimbMod := false
            MovementMode := EMovementMode.MOVE_Walking
            bOrientRotationToMovement := true }
      else { self with detectedWall := false } := by
  by_cases hc : self.ClimbMod = true <;> simp [AAssignmentCharacter.Tick, h, hc]

theorem step_preserves_ClimbNeedsWall (s : AAssignmentCharacter) (e : Event)
    (h : ClimbNeedsWall s) : ClimbNeedsWall (step s e) := by
  unfold ClimbNeedsWall at *
  cases e with
  | Tick World =>
    cases hh : AAssignmentCharacter.Tick.hit World s
    · simp only [step, Tick_miss_state World s hh]
      split <;> simp_all
    · simp only [step, Tick_hit_state World s hh]
      simp
  | Climb =>
    simp only [step, AAssignmentCharacter.Climb]
    split
    · split <;> simp_all
    · exact h
  | WallJump =>
    simp only [step, AAssignmentCharacter.WallJump]
    split
    · simp
    · exact h
  | Move Value =>
    simp only [step, AAssignmentCharacter.Move]
    split
    · split
      · exact h
      · split <;> exact h
    · exact h
  | Look Value =>
    simp only [step, AAssignmentCharacter.Look]
    split <;> exact h

theorem run_preserves_ClimbNeedsWall (es : List Event) :
    ∀ s : AAssignmentCharacter, ClimbNeedsWall s → ClimbNeedsWall (run s es) := by
  induction es with
  | nil => intro s h; exact h
  | cons e es ih =>
    intro s h
    exact ih (step s e) (step_preserves_ClimbNeedsWall s e h)

/-! ## Climb -/

/-- C1: with the wall-detected flag false, a Climb trigger is a no-op: the climb
flag, the movement mode and the orient-rotation-to-movement flag are unchanged
(so climb mode is not entered); indeed the whole state is unchanged and no
engine call is made. -/
theorem Climb_without_wall_is_noop (self : AAssignmentCharacter)
    (h : self.detectedWall = false) :
    (AAssignmentCharacter.Climb self).1.ClimbMod = self.ClimbMod ∧
    (AAssignmentCharacter.Climb self).1.MovementMode = self.MovementMode ∧
    (AAssignmentCharacter.Climb self).1.bOrientRotationToMovement =
      self.bOrientRotationToMovement ∧
    AAssignmentCharacter.Climb self = (self, []) := by
  simp [AAssignmentCharacter.Climb, h]

theorem Climb_without_wall_is_noop_witness :
    groundedAtOrigin.detectedWall = false ∧
    (AAssignmentCharacter.Climb groundedAtOrigin).1.ClimbMod = false ∧
    AAssignmentCharacter.Climb groundedAtOrigin = (groundedAtOrigin, []) :=
  ⟨rfl, (Climb_without_wall_is_noop groundedAtOrigin rfl).1,
    (Climb_without_wall_is_noop groundedAtOrigin rfl).2.2.2⟩

/-- C2: with the wall-detected flag true, a Climb trigger flips the ability mode
and sets the engine flags to match: from Grounded the result is climb mode,
movement mode Flying, orient-to-movement false; from Climbing the result is
Grounded, movement mode Walking, orient-to-movement true. The wall-detected flag
is not changed. -/
theorem Climb_with_wall_toggles (self : AAssignmentCharacter)
    (h : self.detectedWall = true) :
    (self.ClimbMod = false →
      (AAssignmentCharacter.Climb self).1.ClimbMod = true ∧
      (AAssignmentCharacter.Climb self).1.MovementMode = EMovementMode.MOVE_Flying ∧
      (AAssignmentCharacter.Climb self).1.bOrientRotationToMovement = false) ∧
    (self.ClimbMod = true →
      (AAssignmentCharacter.Climb self).1.ClimbMod = false ∧
      (AAssignmentCharacter.Climb self).1.MovementMode = EMovementMode.MOVE_Walking ∧
      (AAssignmentCharacter.Climb self).1.bOrientRotationToMovement = true) ∧
    (AAssignmentCharacter.Climb self).1.detectedWall = self.detectedWall := by
  refine ⟨?_, ?_, ?_⟩
  · intro hc
    simp [AAssignmentCharacter.Climb, h, hc]
  · intro hc
    simp [AAssignmentCharacter.Climb, h, hc]
  · by_cases hc : self.ClimbMod = true <;> simp [AAssignmentCharacter.Climb, h, hc]

theorem Climb_with_wall_toggles_witness :
    (groundedAtWall.detectedWall = true ∧
      (AAssignmentCharacter.Climb groundedAtWall).1.ClimbMod = true ∧
      (AAssignmentCharacter.Climb groundedAtWall).1.MovementMode =
        EMovementMode.MOVE_Flying ∧
      (AAssignmentCharacter.Climb groundedAtWall).1.bOrientRotationToMovement = false) ∧
    (climbingAtWall.detectedWall = true ∧
      (AAssignmentCharacter.Climb climbingAtWall).1.ClimbMod = false ∧
      (AAssignmentCharacter.Climb climbingAtWall).1.MovementMode =
        EMovementMode.MOVE_Walking ∧
      (AAssignmentCharacter.Climb climbingAtWall).1.bOrientRotationToMovement = true) :=
  ⟨⟨rfl, (Climb_with_wall_toggles groundedAtWall rfl).1 rfl⟩,
    ⟨rfl, (Climb_with_wall_toggles climbingAtWall rfl).2.1 rfl⟩⟩

/-- C8: two consecutive Climb triggers, both handled with the wall-detected flag
true, return the ability mode to the value it had before the first trigger. -/
theorem Climb_twice_restores_mode (self : AAssignmentCharacter)
    (h : self.detectedWall = true) :
    (AAssignmentCharacter.Climb self).1.detectedWall = true ∧
    (AAssignmentCharacter.Climb (AAssignmentCharacter.Climb self).1).1.ClimbMod =
      self.ClimbMod := by
  by_cases hc : self.ClimbMod = true <;> simp [AAssignmentCharacter.Climb, h, hc]

theorem Climb_twice_restores_mode_witness :
    groundedAtWall.detectedWall = true ∧
    (AAssignmentCharacter.Climb groundedAtWall).1.ClimbMod = true ∧
    (AAssignmentCharacter.Climb (AAssignmentCharacter.Climb groundedAtWall).1).1.ClimbMod =
      false :=
  ⟨rfl, rfl, (Climb_twice_restores_mode groundedAtWall rfl).2⟩

/-! ## WallJump -/

/-- C3: in climb mode, a WallJump trigger applies exactly one launch impulse,
with vector (-250, 0, 650), and leaves the state Grounded with movement mode
Walking and orient-to-movement true; a per-frame update that follows it leaves
the ability mode Grounded in every world, whether its ray hits a wall or not,
and launches nothing. -/
theorem WallJump_while_climbing (self : AAssignmentCharacter)
    (h : self.ClimbMod = true) :
    launchImpulses (AAssignmentCharacter.WallJump self).2 = [⟨-250, 0, 650⟩] ∧
    (AAssignmentCharacter.WallJump self).2 =
      [EngineCall.UE_LOG "Wall Jump!",
       EngineCall.LaunchCharacter ⟨-250, 0, 650⟩ false false,
       EngineCall.UE_LOG "FlimbMod Off"] ∧
    (AAssignmentCharacter.WallJump self).1.ClimbMod = false ∧
    (AAssignmentCharacter.WallJump self).1.MovementMode = EMovementMode.MOVE_Walking ∧
    (AAssignmentCharacter.WallJump self).1.bOrientRotationToMovement = true ∧
    ∀ World : UWorld,
      (AAssignmentCharacter.Tick World (AAssignmentCharacter.WallJump self).1).1.ClimbMod =
        false ∧
      launchImpulses
        (AAssignmentCharacter.Tick World (AAssignmentCharacter.WallJump self).1).2 = [] := by
  refine ⟨?_, ?_, ?_, ?_, ?_, ?_⟩
  · simp [AAssignmentCharacter.WallJump, h, launchImpulses]
  · simp [AAssignmentCharacter.WallJump, h]
  · simp [AAssignmentCharacter.WallJump, h]
  · simp [AAssignmentCharacter.WallJump, h]
  · simp [AAssignmentCharacter.WallJump, h]
  · intro World
    have hc : (AAssignmentCharacter.WallJump self).1.ClimbMod = false := by
      simp [AAssignmentCharacter.WallJump, h]
    cases hh : AAssignmentCharacter.Tick.hit World (AAssignmentCharacter.WallJump self).1 <;>
      simp [AAssignmentCharacter.Tick, hh, hc, launchImpulses]

theorem WallJump_while_climbing_witness :
    climbingAtWall.ClimbMod = true ∧
    launchImpulses (AAssignmentCharacter.WallJump climbingAtWall).2 = [⟨-250, 0, 650⟩] ∧
    (AAssignmentCharacter.WallJump climbingAtWall).1.ClimbMod = false ∧
    (AAssignmentCharacter.Tick wallWorld
      (AAssignmentCharacter.WallJump climbingAtWall).1).1.ClimbMod = false ∧
    (AAssignmentCharacter.Tick emptyWorld
      (AAssignmentCharacter.WallJump climbingAtWall).1).1.ClimbMod = false :=
  ⟨rfl, (WallJump_while_climbing climbingAtWall rfl).1,
    (WallJump_while_climbing climbingAtWall rfl).2.2.1,
    ((WallJump_while_climbing climbingAtWall rfl).2.2.2.2.2 wallWorld).1,
    ((WallJump_while_climbing climbingAtWall rfl).2.2.2.2.2 emptyWorld).1⟩

/-- C4: outside climb mode (Grounded), a WallJump trigger has no effect: no
launch impulse is issued, no engine call is made at all, and the climb flag, the
wall-detected flag, the movement mode and the orient-to-movement flag are
unchanged, as is the rest of the state. -/
theorem WallJump_while_grounded_is_noop (self : AAssignmentCharacter)
    (h : self.ClimbMod = false) :
    launchImpulses (AAssignmentCharacter.WallJump self).2 = [] ∧
    (AAssignmentCharacter.WallJump self).1.ClimbMod = self.ClimbMod ∧
    (AAssignmentCharacter.WallJump self).1.detectedWall = self.detectedWall ∧
    (AAssignmentCharacter.WallJump self).1.MovementMode = self.MovementMode ∧
    (AAssignmentCharacter.WallJump self).1.bOrientRotationToMovement =
      self.bOrientRotationToMovement ∧
    AAssignmentCharacter.WallJump self = (self, []) := by
  simp [AAssignmentCharacter.WallJump, h, launchImpulses]

theorem WallJump_while_grounded_is_noop_witness :
    groundedAtWall.ClimbMod = false ∧
    launchImpulses (AAssignmentCharacter.WallJump groundedAtWall).2 = [] ∧
    AAssignmentCharacter.WallJump groundedAtWall = (groundedAtWall, []) :=
  ⟨rfl, (WallJump_while_grounded_is_noop groundedAtWall rfl).1,
    (WallJump_while_grounded_is_noop groundedAtWall rfl).2.2.2.2.2⟩

/-! ## Tick -/

/-- C5: in climb mode, a per-frame update whose ray cast reports no hit forces
the climb exit without any Climb trigger: afterwards the state is Grounded, with
movement mode Walking, orient-to-movement true and wall-detected false. A
per-frame update whose ray cast reports a hit leaves the climb flag, the
movement mode and the orient-to-movement flag unchanged. -/
theorem Tick_while_climbing (World : UWorld) (self : AAssignmentCharacter)
    (h : self.ClimbMod = true) :
    (AAssignmentCharacter.Tick.hit World self = false →
      (AAssignmentCharacter.Tick World self).1.ClimbMod = false ∧
      (AAssignmentCharacter.Tick World self).1.MovementMode = EMovementMode.MOVE_Walking ∧
      (AAssignmentCharacter.Tick World self).1.bOrientRotationToMovement = true ∧
      (AAssignmentCharacter.Tick World self).1.detectedWall = false) ∧
    (AAssignmentCharacter.Tick.hit World self = true →
      (AAssignmentCharacter.Tick World self).1.ClimbMod = self.ClimbMod ∧
      (AAssignmentCharacter.Tick World self).1.MovementMode = self.MovementMode ∧
      (AAssignmentCharacter.Tick World self).1.bOrientRotationToMovement =
        self.bOrientRotationToMovement) := by
  constructor
  · intro hh
    simp [AAssignmentCharacter.Tick, hh, h]
  · intro hh
    simp [AAssignmentCharacter.Tick, hh]

theorem Tick_while_climbing_witness :
    (climbingAtWall.ClimbMod = true ∧
      AAssignmentCharacter.Tick.hit emptyWorld climbingAtWall = false ∧
      (AAssignmentCharacter.Tick emptyWorld climbingAtWall).1.ClimbMod = false ∧
      (AAssignmentCharacter.Tick emptyWorld climbingAtWall).1.MovementMode =
        EMovementMode.MOVE_Walking ∧
      (AAssignmentCharacter.Tick emptyWorld climbingAtWall).1.bOrientRotationToMovement =
        true ∧
      (AAssignmentCharacter.Tick emptyWorld climbingAtWall).1.detectedWall = false) ∧
    (AAssignmentCharacter.Tick.hit wallWorld climbingAtWall = true ∧
      (AAssignmentCharacter.Tick wallWorld climbingAtWall).1.ClimbMod = true ∧
      (AAssignmentCharacter.Tick wallWorld climbingAtWall).1.MovementMode =
        EMovementMode.MOVE_Flying ∧
      (AAssignmentCharacter.Tick wallWorld climbingAtWall).1.bOrientRotationToMovement =
        false) :=
  ⟨⟨rfl, rfl, (Tick_while_climbing emptyWorld climbingAtWall rfl).1 rfl⟩,
    ⟨rfl, (Tick_while_climbing wallWorld climbingAtWall rfl).2 rfl⟩⟩

/-- C6: for every world and every controller state, the wall-detected flag after
the per-frame update equals the result of the ray cast (true on hit, false on
miss), whatever the previous values of the wall-detected flag and the climb
flag were. -/
theorem Tick_detectedWall_is_ray_result (World : UWorld) (self : AAssignmentCharacter) :
    (AAssignmentCharacter.Tick World self).1.detectedWall =
      AAssignmentCharacter.Tick.hit World self ∧
    ∀ c d : Bool,
      (AAssignmentCharacter.Tick World
        { self with ClimbMod := c, detectedWall := d }).1.detectedWall =
        AAssignmentCharacter.Tick.hit World self := by
  have key : ∀ t : AAssignmentCharacter,
      (AAssignmentCharacter.Tick World t).1.detectedWall =
        AAssignmentCharacter.Tick.hit World t := by
    intro t
    cases hh : AAssignmentCharacter.Tick.hit World t
    · rw [Tick_miss_state World t hh]
      split <;> rfl
    · rw [Tick_hit_state World t hh]
  refine ⟨key self, ?_⟩
  intro c d
  rw [key]
  rfl

/-- C9, what the code does: the line trace of the per-frame update starts at the
actor location, not at the foot point, while the debug line starts at the foot
point; both end at the foot point advanced 45 units along the forward vector.
The two start points differ for every character. For the grounded character at
the origin facing `+X`, in the world whose only wall is the plane `Z = -45`, the
trace runs from (0,0,0) to (45,0,-90) and hits, so the wall-detected flag becomes
true, although the drawn segment from (0,0,-90) to (45,0,-90) does not meet the
wall. -/
theorem Tick_traces_from_actor_location :
    (AAssignmentCharacter.Tick slabWorld groundedAtOrigin).2 =
      [EngineCall.LineTraceSingleByChannel ⟨0, 0, 0⟩ ⟨45, 0, -90⟩
          ECollisionChannel.ECC_GameTraceChannel1 ⟨true⟩,
       EngineCall.DrawDebugLine ⟨0, 0, -90⟩ ⟨45, 0, -90⟩ FColor.Green] ∧
    (AAssignmentCharacter.Tick slabWorld groundedAtOrigin).1.detectedWall = true ∧
    slabWorld.LineTraceSingleByChannel ⟨0, 0, -90⟩ ⟨45, 0, -90⟩
      ECollisionChannel.ECC_GameTraceChannel1 ⟨true⟩ = false ∧
    ∀ self : AAssignmentCharacter,
      AAssignmentCharacter.Tick.start self = self.ActorLocation ∧
      AAssignmentCharacter.Tick.start self ≠ AAssignmentCharacter.Tick.foot self := by
  have hfoot : AAssignmentCharacter.Tick.foot groundedAtOrigin = ⟨0, 0, -90⟩ := by
    show (⟨0 - 0, 0 - 0, 0 - 90⟩ : FVector) = ⟨0, 0, -90⟩
    norm_num
  have hstart : AAssignmentCharacter.Tick.start groundedAtOrigin = ⟨0, 0, 0⟩ := rfl
  have hend : AAssignmentCharacter.Tick.end_ groundedAtOrigin = ⟨45, 0, -90⟩ := by
    show (⟨0 - 0 + 1 * 45, 0 - 0 + 0 * 45, 0 - 90 + 0 * 45⟩ : FVector) = ⟨45, 0, -90⟩
    norm_num
  have hhit : AAssignmentCharacter.Tick.hit slabWorld groundedAtOrigin = true := by
    unfold AAssignmentCharacter.Tick.hit
    rw [hstart, hend]
    simp only [slabWorld]
    norm_num
  refine ⟨?_, ?_, ?_, ?_⟩
  · simp only [AAssignmentCharacter.Tick, hhit, hfoot, hstart, hend]
    rfl
  · rw [Tick_hit_state slabWorld groundedAtOrigin hhit]
  · simp only [slabWorld]
    norm_num
  · intro self
    refine ⟨rfl, ?_⟩
    intro heq
    have hz : self.ActorLocation.Z = self.ActorLocation.Z - 90 := congrArg FVector.Z heq
    linarith

/-! ## Move -/

/-- C10: starting from any state with the climb flag false, after every finite
sequence of per-frame updates (in arbitrary worlds, hence with arbitrary ray
results), Climb, WallJump, Move and Look events, climb mode active implies that
the wall-detected flag is true; consequently a Climb trigger received in any
reachable Climbing state toggles climb mode off. -/
theorem reachable_climb_needs_wall (s : AAssignmentCharacter) (es : List Event)
    (h : s.ClimbMod = false) :
    ((run s es).ClimbMod = true → (run s es).detectedWall = true) ∧
    ((run s es).ClimbMod = true →
      (AAssignmentCharacter.Climb (run s es)).1.ClimbMod = false) := by
  have hinv : ClimbNeedsWall (run s es) :=
    run_preserves_ClimbNeedsWall es s (by intro hc; rw [h] at hc; cases hc)
  refine ⟨hinv, ?_⟩
  intro hc
  simp [AAssignmentCharacter.Climb, hinv hc, hc]

theorem reachable_climb_needs_wall_witness :
    groundedAtOrigin.ClimbMod = false ∧
    (run groundedAtOrigin
      [Event.Tick wallWorld, Event.Climb, Event.Move ⟨1, 1⟩, Event.Look ⟨1, 1⟩,
       Event.Tick wallWorld]).ClimbMod = true ∧
    (run groundedAtOrigin
      [Event.Tick wallWorld, Event.Climb, Event.Move ⟨1, 1⟩, Event.Look ⟨1, 1⟩,
       Event.Tick wallWorld]).detectedWall = true ∧
    (AAssignmentCharacter.Climb (run groundedAtOrigin
      [Event.Tick wallWorld, Event.Climb, Event.Move ⟨1, 1⟩, Event.Look ⟨1, 1⟩,
       Event.Tick wallWorld])).1.ClimbMod = false :=
  ⟨rfl, rfl,
    (reachable_climb_needs_wall groundedAtOrigin
      [Event.Tick wallWorld, Event.Climb, Event.Move ⟨1, 1⟩, Event.Look ⟨1, 1⟩,
       Event.Tick wallWorld] rfl).1 rfl,
    (reachable_climb_needs_wall groundedAtOrigin
      [Event.Tick wallWorld, Event.Climb, Event.Move ⟨1, 1⟩, Event.Look ⟨1, 1⟩,
       Event.Tick wallWorld] rfl).2 rfl⟩

end Assignment
